import Mathlib

/-!
# Jakt runtime, `Jakt/Format.h`: the argument registry and the per-type formatters

A shallow embedding of `bootstrap/stage0/runtime/Jakt/Format.h`.

* Runtime code that can hit `VERIFY`, `TODO` or `VERIFY_NOT_REACHED` returns a `Run`.
* Code evaluated by the compiler (`consteval`, `static_assert`) returns an `Option`;
  `none` is a rejected instantiation.
* `size_t` is `Nat` reduced modulo `2 ^ (8 * size_t_bytes)`; `size_t_bytes` is `sizeof(size_t)`
  of the target.
* A `T const&` / `void const*` is a `Ref`: the address together with the object found there
  (the objects a handle refers to are `const` for the whole call).
* Functions the header only declares (`StandardFormatter::parse`, `Formatter<Integral>::format`,
  `Formatter<StringView>::format`, ...) are parameters of the definitions that call them.
-/

namespace Jakt

/-! ## Outcomes -/

/-- Outcome of running a piece of the runtime.
* `ret a`: the call returned `a`;
* `abort`: a `VERIFY`, `TODO()` or `VERIFY_NOT_REACHED()` fired, the process is gone;
* `rejected`: the template instantiation that is being run is ill-formed, there is no program;
* `outOfFuel`: the recursion budget of the model ran out (never a behaviour of the code). -/
inductive Run (α : Type) where
  | ret (a : α)
  | abort
  | rejected
  | outOfFuel
deriving DecidableEq, Repr

/-- Modelled from the spec: `Jakt::Error` (from `Jakt/Error.h`, not part of the header): the
failure an `ErrorOr` carries, an error code. -/
structure Error where
  code : Int
deriving DecidableEq, Repr

/-- Modelled from the spec: `ErrorOr<T>` (from `Jakt/Error.h`) used as a return type, success
or failure; `ErrorOr<void>` is `ErrorOr Unit`. -/
abbrev ErrorOr (α : Type) := Except Error α

deriving instance DecidableEq for Except

/-! ## Types and objects seen by the templates -/

/-- A C++ type as the templates of the header see it. `IsIntegral<T>`, `sizeof(T)` and
`IsUnsigned<T>` are not defined in the header; an integral type carries its answers. -/
inductive CType where
  | integral (id : Nat) (sizeof : Nat) (IsUnsigned : Bool)
  | Error
  | ErrorOr (T E : CType)
  | other (id : Nat)
deriving DecidableEq, Repr

/-- The trait `IsIntegral<T>`. -/
def CType.IsIntegral : CType → Bool
  | .integral _ _ _ => true
  | _ => false

/-- An object in the caller's memory: an integer, a `Jakt::Error` with its code, an
`ErrorOr<T, ErrorType>` in the value state or in the error state, or anything else. -/
inductive Value where
  | int (v : Int)
  | Error (code : Int)
  | ErrorOr_value (v : Value)
  | ErrorOr_error (e : Value)
  | other (id : Nat)
deriving DecidableEq, Repr

/-- A `T const&` or `void const*`: an address and the object stored there. -/
structure Ref where
  addr : Nat
  obj : Value
deriving DecidableEq, Repr

/-- The integer read through a `uN const*` / `iN const*`. Handles of an integer kind always
refer to an integer object; for any other object the read is undefined and the model
answers 0. -/
def Ref.read_int (r : Ref) : Int :=
  match r.obj with
  | .int v => v
  | _ => 0

/-- The fixed-width integer types `u8 ... i64` that `visit` casts to (from `Jakt/Types.h`):
`sizeof(T)` and `IsSigned<T>`. -/
structure IntType where
  sizeof : Nat
  IsSigned : Bool
deriving DecidableEq, Repr

def u8 : IntType := ⟨1, false⟩
def u16 : IntType := ⟨2, false⟩
def u32 : IntType := ⟨4, false⟩
def u64 : IntType := ⟨8, false⟩
def i8 : IntType := ⟨1, true⟩
def i16 : IntType := ⟨2, true⟩
def i32 : IntType := ⟨4, true⟩
def i64 : IntType := ⟨8, true⟩

/-- The largest `size_t`, `NumericLimits<size_t>::max()`. -/
def NumericLimits_size_t_max (size_t_bytes : Nat) : Nat := 2 ^ (8 * size_t_bytes) - 1

/-- The conversion `static_cast<size_t>(value)`. -/
def static_cast_size_t (size_t_bytes : Nat) (value : Int) : Nat :=
  (value % (2 : Int) ^ (8 * size_t_bytes)).toNat

/-! ## `TypeErasedParameter` -/

/-- Source: `TypeErasedParameter::Type`. -/
inductive TypeErasedParameter.Type_ where
  | UInt8 | UInt16 | UInt32 | UInt64
  | Int8 | Int16 | Int32 | Int64
  | Custom
deriving DecidableEq, Repr

/-- The function a handle points to: `__format_value<T>` is the only one ever stored. -/
inductive FormatterFn where
  | format_value (T : CType)
deriving DecidableEq, Repr

/-- Source: `struct TypeErasedParameter`. -/
structure TypeErasedParameter where
  value : Ref
  type : TypeErasedParameter.Type_
  formatter : FormatterFn
deriving DecidableEq, Repr

namespace TypeErasedParameter

/-- Source: `get_type_from_size<size, is_unsigned>()`; `none` is the `VERIFY_NOT_REACHED()` of a
`consteval` function, a compile error. -/
def get_type_from_size (size : Nat) (is_unsigned : Bool) : Option Type_ :=
  if is_unsigned then
    if size = 1 then some .UInt8
    else if size = 2 then some .UInt16
    else if size = 4 then some .UInt32
    else if size = 8 then some .UInt64
    else none
  else
    if size = 1 then some .Int8
    else if size = 2 then some .Int16
    else if size = 4 then some .Int32
    else if size = 8 then some .Int64
    else none

/-- Source: `get_type<T>()`. -/
def get_type (T : CType) : Option Type_ :=
  match T with
  | .integral _ sizeof IsUnsigned => get_type_from_size sizeof IsUnsigned
  | _ => some .Custom

/-- Source: `visit(visitor)`: the visitor is a generic lambda, it receives the type it is
instantiated at and the value read through the cast pointer. -/
def visit {β : Type} (p : TypeErasedParameter) (visitor : IntType → Int → Run β) : Run β :=
  match p.type with
  | .UInt8 => visitor u8 p.value.read_int
  | .UInt16 => visitor u16 p.value.read_int
  | .UInt32 => visitor u32 p.value.read_int
  | .UInt64 => visitor u64 p.value.read_int
  | .Int8 => visitor i8 p.value.read_int
  | .Int16 => visitor i16 p.value.read_int
  | .Int32 => visitor i32 p.value.read_int
  | .Int64 => visitor i64 p.value.read_int
  | .Custom => .abort

/-- Source: `to_size()`. -/
def to_size (size_t_bytes : Nat) (p : TypeErasedParameter) : Run Nat :=
  p.visit fun T value =>
    if T.sizeof > size_t_bytes ∧ ¬ value < (NumericLimits_size_t_max size_t_bytes : Int) then
      .abort
    else if T.IsSigned = true ∧ ¬ value > 0 then
      .abort
    else
      .ret (static_cast_size_t size_t_bytes value)

/-- The integer type behind an integer kind (`none` for `Custom`). -/
def Type_.intType : Type_ → Option IntType
  | .UInt8 => some u8
  | .UInt16 => some u16
  | .UInt32 => some u32
  | .UInt64 => some u64
  | .Int8 => some i8
  | .Int16 => some i16
  | .Int32 => some i32
  | .Int64 => some i64
  | .Custom => none

end TypeErasedParameter

/-! ## `TypeErasedFormatParams` -/

/-- Source: `class TypeErasedFormatParams`. -/
structure TypeErasedFormatParams where
  m_parameters : List TypeErasedParameter := []
  m_next_index : Nat := 0
deriving DecidableEq, Repr

namespace TypeErasedFormatParams

/-- Source: `parameters()`. -/
def parameters (self : TypeErasedFormatParams) : List TypeErasedParameter := self.m_parameters

/-- Source: `set_parameters(parameters)`. -/
def set_parameters (self : TypeErasedFormatParams) (parameters : List TypeErasedParameter) :
    TypeErasedFormatParams :=
  { self with m_parameters := parameters }

/-- Source: `take_next_index()`: `return m_next_index++;` on a `size_t`. The first component is the
returned value, the second the registry after the call. -/
def take_next_index (size_t_bytes : Nat) (self : TypeErasedFormatParams) :
    Nat × TypeErasedFormatParams :=
  (self.m_next_index,
   { self with m_next_index := (self.m_next_index + 1) % 2 ^ (8 * size_t_bytes) })

/-- The registry after `n` calls of `take_next_index()`. -/
def after_calls (size_t_bytes : Nat) (self : TypeErasedFormatParams) : Nat → TypeErasedFormatParams
  | 0 => self
  | n + 1 => (take_next_index size_t_bytes (after_calls size_t_bytes self n)).2

/-- The value returned by the `n`-th call of `take_next_index()`, counting from 1. -/
def nth_call (size_t_bytes : Nat) (self : TypeErasedFormatParams) (n : Nat) : Nat :=
  (take_next_index size_t_bytes (after_calls size_t_bytes self (n - 1))).1

end TypeErasedFormatParams

/-! ## `FormatBuilder` and the sink -/

/-- Source: `FormatBuilder::Align`. -/
inductive FormatBuilder.Align where
  | Default | Left | Center | Right
deriving DecidableEq, Repr

/-- Source: `FormatBuilder::SignMode`; the fourth enumerator, `Default = OnlyIfNeeded`, is an
alias. -/
inductive FormatBuilder.SignMode where
  | OnlyIfNeeded | Always | Reserved
deriving DecidableEq, Repr

/-- Source: `SignMode::Default = OnlyIfNeeded`. -/
def FormatBuilder.SignMode.Default : FormatBuilder.SignMode := .OnlyIfNeeded

/-- Modelled from the spec: `StringBuilder`, the external Output Sink, "an append-only text
buffer" whose append can fail ("SinkError ... e.g. allocation failure"). `room` is the number
of characters that can still be stored. -/
structure StringBuilder where
  text : List Char
  room : Nat
deriving DecidableEq, Repr

/-- Modelled from the spec: the error of a failed append of the sink ("e.g. allocation
failure"), `ENOMEM`. -/
def ENOMEM : Int := 12

/-- Modelled from the spec: the sink's append. It either extends the text or fails and leaves
the text as it was. -/
def StringBuilder.try_append (self : StringBuilder) (s : List Char) :
    ErrorOr Unit × StringBuilder :=
  if s.length ≤ self.room then
    (.ok (), { text := self.text ++ s, room := self.room - s.length })
  else
    (.error ⟨ENOMEM⟩, self)

/-- Source: `class FormatBuilder`: a reference to the sink. -/
structure FormatBuilder where
  m_builder : StringBuilder
deriving DecidableEq, Repr

/-- Source: `builder()`. -/
def FormatBuilder.builder (self : FormatBuilder) : StringBuilder := self.m_builder

/-- Modelled from the spec: `put_literal(text)` (declared in the header, defined elsewhere):
"append raw text unchanged"; it fails only "if the sink append fails". -/
def FormatBuilder.put_literal (self : FormatBuilder) (value : List Char) :
    Run (ErrorOr Unit × FormatBuilder) :=
  let r := self.m_builder.try_append value
  .ret (r.1, ⟨r.2⟩)

/-- Modelled from the spec: `class FormatParser`, which the header only forward-declares:
the directive text of one placeholder, as far as it has not been consumed. -/
structure FormatParser where
  m_input : List Char
deriving DecidableEq, Repr

/-! ## `StandardFormatter` -/

/-- Source: `StandardFormatter::Mode`. -/
inductive StandardFormatter.Mode where
  | Default | Binary | BinaryUppercase | Decimal | Octal | Hexadecimal | HexadecimalUppercase
  | Character | String | Pointer | Float | Hexfloat | HexfloatUppercase | HexDump
deriving DecidableEq, Repr

/-- Source: `struct StandardFormatter` with its default member initializers. -/
structure StandardFormatter where
  m_align : FormatBuilder.Align := .Default
  m_sign_mode : FormatBuilder.SignMode := .OnlyIfNeeded
  m_mode : StandardFormatter.Mode := .Default
  m_alternative_form : Bool := false
  m_fill : Char := ' '
  m_zero_pad : Bool := false
  m_width : Option Nat := none
  m_precision : Option Nat := none
deriving DecidableEq, Repr

/-- What a formatting call leaves behind: its `ErrorOr<void>` and the sink. -/
abbrev Rendered := Run (ErrorOr Unit × FormatBuilder)

/-- The type of `Formatter<FlatPtr>::format` (`Formatter<Integral T>::format`, declared in the
header, defined elsewhere): the specification, the builder and the integer. -/
abbrev IntegralFormat := StandardFormatter → FormatBuilder → Nat → Rendered

/-- Modelled from the spec: `StringView` (from `Jakt/StringView.h`), the characters viewed. -/
abbrev StringView := List Char

/-- Modelled from the spec: `ReadonlyBytes` (a byte span, declared outside the header): its
`data()` pointer and the bytes viewed. -/
structure ReadonlyBytes where
  data : Nat
  bytes : List Char
deriving DecidableEq, Repr

/-- The conversion `ReadonlyBytes -> StringView` made at the call of
`Formatter<StringView>::format(builder, value)`. -/
def ReadonlyBytes.to_string_view (value : ReadonlyBytes) : StringView := value.bytes

/-- The type of `Formatter<StringView>::format` (declared in the header, defined elsewhere). -/
abbrev StringViewFormat := StandardFormatter → FormatBuilder → StringView → Rendered

/-- Source: `Formatter<ReadonlyBytes>::format(builder, value)`; `self` is `*this`. -/
def Formatter_ReadonlyBytes.format (Formatter_FlatPtr_format : IntegralFormat)
    (Formatter_StringView_format : StringViewFormat)
    (self : StandardFormatter) (builder : FormatBuilder) (value : ReadonlyBytes) : Rendered :=
  if self.m_mode = .Pointer then
    let formatter : StandardFormatter := self
    Formatter_FlatPtr_format formatter builder value.data
  else if self.m_mode = .Default ∨ self.m_mode = .HexDump then
    let self := { self with m_mode := .HexDump }
    Formatter_StringView_format self builder value.to_string_view
  else
    Formatter_StringView_format self builder value.to_string_view

/-- Source: `Formatter<T*>::format(builder, value)`; `value` is the address held by the
pointer, `reinterpret_cast<FlatPtr>(value)` keeps it. -/
def Formatter_pointer.format (Formatter_FlatPtr_format : IntegralFormat)
    (self : StandardFormatter) (builder : FormatBuilder) (value : Nat) : Rendered :=
  let self := if self.m_mode = .Default then { self with m_mode := .Pointer } else self
  let formatter : StandardFormatter := self
  Formatter_FlatPtr_format formatter builder value

/-- Source: `Formatter<std::nullptr_t>::format(builder, nullptr)`. -/
def Formatter_nullptr_t.format (Formatter_FlatPtr_format : IntegralFormat)
    (self : StandardFormatter) (builder : FormatBuilder) : Rendered :=
  let self := if self.m_mode = .Default then { self with m_mode := .Pointer } else self
  Formatter_FlatPtr_format self builder 0

/-! ## `__format_value` -/

/-- A specialisation `Formatter<T>`: the state of a default-constructed formatter, its
`parse` (returns `void`, changes the formatter, the registry and the parser it is given by
reference) and its `format` (returns `ErrorOr<void>`, writes to the builder). -/
structure Formatter (σ : Type) where
  init : σ
  parse : σ → TypeErasedFormatParams → FormatParser →
    Run (σ × TypeErasedFormatParams × FormatParser)
  format : σ → FormatBuilder → Ref → Rendered

/-- The statements of `__format_value`. -/
inductive Step where
  | construct | parse | format
deriving DecidableEq, Repr

/-- What `__format_value` leaves behind: its `ErrorOr<void>` and the three objects it got by
reference. -/
structure Formatted where
  result : ErrorOr Unit
  params : TypeErasedFormatParams
  builder : FormatBuilder
  parser : FormatParser
deriving DecidableEq, Repr

/-- Source: `__format_value<T>(params, builder, parser, value)`, with the statements it
executed. -/
def __format_value_steps {σ : Type} (F : Formatter σ) (params : TypeErasedFormatParams)
    (builder : FormatBuilder) (parser : FormatParser) (value : Ref) :
    List Step × Run Formatted :=
  let formatter := F.init
  match F.parse formatter params parser with
  | .ret (formatter, params, parser) =>
    match F.format formatter builder value with
    | .ret (result, builder) =>
      ([.construct, .parse, .format], .ret ⟨result, params, builder, parser⟩)
    | .abort => ([.construct, .parse, .format], .abort)
    | .rejected => ([.construct, .parse, .format], .rejected)
    | .outOfFuel => ([.construct, .parse, .format], .outOfFuel)
  | .abort => ([.construct, .parse], .abort)
  | .rejected => ([.construct, .parse], .rejected)
  | .outOfFuel => ([.construct, .parse], .outOfFuel)

/-- Source: `__format_value<T>(params, builder, parser, value)`. -/
def __format_value {σ : Type} (F : Formatter σ) (params : TypeErasedFormatParams)
    (builder : FormatBuilder) (parser : FormatParser) (value : Ref) : Run Formatted :=
  (__format_value_steps F params builder parser value).2

/-! ## `VariadicFormatParams` -/

/-- Source: `max_format_arguments`. -/
def max_format_arguments : Nat := 256

/-- One element of the pack `Parameters const&... parameters`: its static type and the
reference. -/
structure Arg where
  T : CType
  ref : Ref
deriving DecidableEq, Repr

/-- The initializer of `m_data`:
`{ TypeErasedParameter { &parameters, get_type<Parameters>(), __format_value<Parameters> }... }`. -/
def VariadicFormatParams.m_data : List Arg → Option (List TypeErasedParameter)
  | [] => some []
  | a :: rest =>
    match TypeErasedParameter.get_type a.T, VariadicFormatParams.m_data rest with
    | some type, some handles => some (⟨a.ref, type, .format_value a.T⟩ :: handles)
    | _, _ => none

/-- Source: `VariadicFormatParams<Parameters...>(parameters...)`: the `static_assert`, the
member initializer, and `set_parameters(m_data)` on the default-constructed base. -/
def VariadicFormatParams (parameters : List Arg) : Option TypeErasedFormatParams :=
  if parameters.length ≤ max_format_arguments then
    match VariadicFormatParams.m_data parameters with
    | some m_data => some (({} : TypeErasedFormatParams).set_parameters m_data)
    | none => none
  else
    none

/-! ## `Formatter<FormatString>`, `Formatter<Error>`, `Formatter<ErrorOr<T, ErrorType>>` -/

/-- Sequencing of two `Run`s: anything but a return ends the computation. -/
def Run.bind {α β : Type} (r : Run α) (k : α → Run β) : Run β :=
  match r with
  | .ret a => k a
  | .abort => .abort
  | .rejected => .rejected
  | .outOfFuel => .outOfFuel

/-- Sequencing as in `TRY(first); next`: a failed `ErrorOr<void>` is returned at once, with
the sink as the failed step left it. -/
def and_then (first : Rendered) (next : FormatBuilder → Rendered) : Rendered :=
  first.bind fun r =>
    match r.1 with
    | .ok () => next r.2
    | .error e => .ret (.error e, r.2)

/-- The type of the three-argument `vformat` (the Dispatch Driver). The registry is passed by
reference, but every caller in the header drops it after the call. -/
abbrev Driver := FormatBuilder → StringView → TypeErasedFormatParams → Rendered

/-- Source: `Formatter<FormatString>::format(builder, fmtstr, parameters...)`. -/
def Formatter_FormatString.format (vformat : Driver) (builder : FormatBuilder)
    (fmtstr : StringView) (parameters : List Arg) : Rendered :=
  match VariadicFormatParams parameters with
  | some variadic_format_params => vformat builder fmtstr variadic_format_params
  | none => .rejected

/-- Modelled from the spec: `Error::code()` (from `Jakt/Error.h`); on an object that is no
`Error` the call is undefined and the model answers 0. -/
def Value.code : Value → Int
  | .Error code => code
  | _ => 0

/-- Modelled from the spec: `ErrorOr::is_error()` (from `Jakt/Error.h`). -/
def Value.is_error : Value → Bool
  | .ErrorOr_error _ => true
  | _ => false

/-- Modelled from the spec: `ErrorOr::error()` (from `Jakt/Error.h`); undefined unless
`is_error()`, the model then answers the object. -/
def Value.error : Value → Value
  | .ErrorOr_error e => e
  | v => v

/-- Modelled from the spec: `ErrorOr::value()` (from `Jakt/Error.h`); undefined if
`is_error()`, the model then answers the object. -/
def Value.value : Value → Value
  | .ErrorOr_value v => v
  | v => v

/-- What the formatters of this header need from the rest of the runtime.
* `size_t_bytes`: `sizeof(size_t)`;
* `parse`: `StandardFormatter::parse` (declared in the header, defined elsewhere);
* `put_integer`: the integer primitive the driver calls for a handle of an integer kind;
* `custom`: `Formatter<T>` for the types whose formatter is not written in the header;
* `code_type`: the return type of `Error::code()` (from `Jakt/Error.h`);
* `inner`: the address of the object a formatter hands to a nested call (a member of its
  argument, or a temporary). -/
structure Env (σ : Type) where
  size_t_bytes : Nat
  parse : StandardFormatter → TypeErasedFormatParams → FormatParser →
    Run (StandardFormatter × TypeErasedFormatParams × FormatParser)
  put_integer : StandardFormatter → FormatBuilder → TypeErasedParameter.Type_ → Int → Rendered
  custom : CType → Formatter σ
  code_type : CType
  inner : Ref → Nat

/-- Source: `Formatter<Error>::format(builder, error)`. -/
def Formatter_Error.format {σ : Type} (env : Env σ) (vformat : Driver)
    (builder : FormatBuilder) (error : Ref) : Rendered :=
  Formatter_FormatString.format vformat builder "Error(code=\x7b\x7d)".toList
    [⟨env.code_type, ⟨env.inner error, .int error.obj.code⟩⟩]

/-- Source: `Formatter<ErrorOr<T, ErrorType>>::format(builder, error_or)`. -/
def Formatter_ErrorOr.format {σ : Type} (env : Env σ) (vformat : Driver) (T ErrorType : CType)
    (builder : FormatBuilder) (error_or : Ref) : Rendered :=
  if error_or.obj.is_error then
    Formatter_FormatString.format vformat builder "\x7b\x7d".toList
      [⟨ErrorType, ⟨env.inner error_or, error_or.obj.error⟩⟩]
  else
    Formatter_FormatString.format vformat builder "\x7b\x7b\x7b\x7d\x7d\x7d".toList
      [⟨T, ⟨env.inner error_or, error_or.obj.value⟩⟩]

/-! ## The Dispatch Driver

`vformat` is declared in the header and defined in another file of the runtime; the driver
below follows section 4.4 of the specification. -/

/-- The opening brace `{`. -/
def lbrace : Char := Char.ofNat 123

/-- The closing brace `}`. -/
def rbrace : Char := Char.ofNat 125

/-- Modelled from the spec: the failure of a malformed placeholder ("ParseError"); the
driver's source is missing, the code is the model's choice. -/
def ParseError : Error := ⟨22⟩

/-- Modelled from the spec: the failure of an index outside `[0, parameter_count)`
("IndexError"); the driver's source is missing, the code is the model's choice. -/
def IndexError : Error := ⟨34⟩

/-- Modelled from the spec: the pieces the driver scans a template into, a literal run (or
an escaped brace) and a placeholder with its optional explicit index and its directive. -/
inductive Token where
  | literal (text : List Char)
  | placeholder (index : Option Nat) (directive : List Char)
deriving DecidableEq, Repr

/-- Modelled from the spec: "a literal run (any text not part of `{`/`}`)": the longest
brace-free start of the text, and what follows it. -/
def take_literal : List Char → List Char × List Char
  | [] => ([], [])
  | c :: cs =>
    if c = lbrace ∨ c = rbrace then ([], c :: cs)
    else ((c :: (take_literal cs).1), (take_literal cs).2)

/-- Modelled from the spec: "an optional leading decimal integer": the digits read so far
give `acc`. -/
def take_number (acc : Nat) : List Char → Nat × List Char
  | [] => (acc, [])
  | c :: cs =>
    if c.isDigit then take_number (acc * 10 + (c.toNat - 48)) cs
    else (acc, c :: cs)

/-- Modelled from the spec: the directive runs to the `}` matching the placeholder's `{`;
`level` braces are open, `seen` is the directive read so far. `none`: never closed. -/
def take_directive (level : Nat) (seen : List Char) : List Char → Option (List Char × List Char)
  | [] => none
  | c :: cs =>
    if c = rbrace then
      match level with
      | 0 => some (seen, cs)
      | l + 1 => take_directive l (seen ++ [c]) cs
    else if c = lbrace then take_directive (level + 1) (seen ++ [c]) cs
    else take_directive level (seen ++ [c]) cs

/-- Modelled from the spec: the body of a placeholder, after its `{`: "an optional leading
decimal integer is an explicit argument index", then the closing `}` or `:` and the
directive. `none`: "parsing fails". -/
def take_placeholder (body : List Char) : Option (Token × List Char) :=
  let index : Option Nat × List Char :=
    match body with
    | c :: _ => if c.isDigit then (some (take_number 0 body).1, (take_number 0 body).2)
                else (none, body)
    | [] => (none, body)
  match index.2 with
  | [] => none
  | c :: rest =>
    if c = rbrace then some (.placeholder index.1 [], rest)
    else if c = ':' then
      match take_directive 0 [] rest with
      | some (directive, rest) => some (.placeholder index.1 directive, rest)
      | none => none
    else none

/-- Modelled from the spec: the next piece of a non-empty template, scanning left to right:
"`{{` and `}}` each collapse to a single literal brace; a `{` not escaped opens a
placeholder"; a `}` that is not escaped is an unbalanced brace. `none`: "parsing fails". -/
def next_token : List Char → Option (Token × List Char)
  | [] => none
  | c :: cs =>
    if c = lbrace then
      match cs with
      | c2 :: cs2 => if c2 = lbrace then some (.literal [lbrace], cs2) else take_placeholder cs
      | [] => none
    else if c = rbrace then
      match cs with
      | c2 :: cs2 => if c2 = rbrace then some (.literal [rbrace], cs2) else none
      | [] => none
    else some (.literal (take_literal (c :: cs)).1, (take_literal (c :: cs)).2)

/-- How the driver renders one resolved handle: the handle, the directive, the sink and the
registry. -/
abbrev Dispatch := TypeErasedParameter → List Char → FormatBuilder → TypeErasedFormatParams →
  Run Formatted

/-- Modelled from the spec: the scan of the Dispatch Driver over what is left of the
template. `steps` bounds the number of pieces (every piece consumes a character). -/
def vformat_impl (size_t_bytes : Nat) (dispatch : Dispatch) :
    Nat → FormatBuilder → TypeErasedFormatParams → List Char →
    Run (ErrorOr Unit × FormatBuilder × TypeErasedFormatParams)
  | 0, _, _, _ => .outOfFuel
  | steps + 1, builder, params, fmtstr =>
    match fmtstr with
    | [] => .ret (.ok (), builder, params)
    | _ :: _ =>
      match next_token fmtstr with
      | none => .ret (.error ParseError, builder, params)
      | some (.literal text, rest) =>
        (builder.put_literal text).bind fun r =>
          match r.1 with
          | .ok () => vformat_impl size_t_bytes dispatch steps r.2 params rest
          | .error e => .ret (.error e, r.2, params)
      | some (.placeholder index directive, rest) =>
        let resolved : Nat × TypeErasedFormatParams :=
          match index with
          | some i => (i, params)
          | none => params.take_next_index size_t_bytes
        match resolved.2.parameters.get? resolved.1 with
        | none => .ret (.error IndexError, builder, resolved.2)
        | some handle =>
          (dispatch handle directive builder resolved.2).bind fun f =>
            match f.result with
            | .ok () => vformat_impl size_t_bytes dispatch steps f.builder f.params rest
            | .error e => .ret (.error e, f.builder, f.params)

/-- Forget the registry, which the callers of the driver drop. -/
def drop_params (r : Run (ErrorOr Unit × FormatBuilder × TypeErasedFormatParams)) : Rendered :=
  r.bind fun x => .ret (x.1, x.2.1)

/-- Forget the registry and the parser, which the driver's callers do not see. -/
def rendered (r : Run Formatted) : Rendered :=
  r.bind fun f => .ret (f.result, f.builder)

/-- Modelled from the spec: the adapter stored in a handle of kind `Custom`, that is
`__format_value<T>` at the `Formatter<T>` that static typing selects: the two formatters of
this header that format a nested template, or one from the rest of the runtime. -/
def adapter {σ : Type} (env : Env σ) (vformat : Driver) : FormatterFn → TypeErasedFormatParams →
    FormatBuilder → FormatParser → Ref → Run Formatted
  | .format_value .Error =>
    __format_value ⟨({} : StandardFormatter), env.parse,
      fun _ builder error => Formatter_Error.format env vformat builder error⟩
  | .format_value (.ErrorOr T ErrorType) =>
    __format_value ⟨({} : StandardFormatter), env.parse,
      fun _ builder error_or => Formatter_ErrorOr.format env vformat T ErrorType builder error_or⟩
  | .format_value T => __format_value (env.custom T)

/-- Modelled from the spec: the dispatch of a resolved handle: "if its kind is a primitive
integer kind, invoke the matching integer primitive directly using fields from the
Specification; if custom, invoke the handle's stored adapter". -/
def dispatch {σ : Type} (env : Env σ) (vformat : Driver) : Dispatch :=
  fun handle directive builder params =>
    match handle.type with
    | .Custom => adapter env vformat handle.formatter params builder ⟨directive⟩ handle.value
    | kind =>
      (env.parse {} params ⟨directive⟩).bind fun parsed =>
        (env.put_integer parsed.1 builder kind handle.value.read_int).bind fun r =>
          .ret ⟨r.1, parsed.2.1, r.2, parsed.2.2⟩

/-- Modelled from the spec: the Dispatch Driver `vformat(builder, fmtstr, params)`. `depth`
bounds the nesting of templates: a formatter run by the driver at `depth + 1` formats its own
template with the driver at `depth`. -/
def vformat {σ : Type} (env : Env σ) : Nat → Driver
  | 0 => fun _ _ _ => .outOfFuel
  | depth + 1 => fun builder fmtstr params =>
    drop_params (vformat_impl env.size_t_bytes (dispatch env (vformat env depth))
      (fmtstr.length + 1) builder params fmtstr)

end Jakt

namespace Jakt

/-! ## Concrete formatters and environments used as instances -/

/-- A formatter whose `parse` accepts the empty directive only and hits a `VERIFY` on
anything else, and whose `format` writes `v`. -/
def strict_formatter : Formatter StandardFormatter where
  init := {}
  parse := fun self params parser =>
    if parser.m_input = [] then .ret (self, params, parser) else .abort
  format := fun _ builder _ => builder.put_literal ['v']

/-- An integer formatter that writes `i`. -/
def sample_integral_format : IntegralFormat := fun _ builder _ => builder.put_literal ['i']

/-- A string formatter that writes `s`. -/
def sample_string_format : StringViewFormat := fun _ builder _ => builder.put_literal ['s']

/-- A sink with room for 100 characters. -/
def sample_builder : FormatBuilder := ⟨⟨[], 100⟩⟩

/-- A 64-bit target whose `StandardFormatter::parse` accepts the empty directive only, whose
integer primitive writes `7`, and whose other formatters are `strict_formatter`. -/
def sample_env : Env StandardFormatter where
  size_t_bytes := 8
  parse := strict_formatter.parse
  put_integer := fun _ builder _ _ => builder.put_literal ['7']
  custom := fun _ => strict_formatter
  code_type := .integral 0 4 false
  inner := fun r => r.addr + 8

end Jakt

/-! # Theorems -/

namespace Jakt

open TypeErasedParameter

/-! ## `TypeErasedParameter::to_size` -/

/-- What `to_size` does on a handle of an integer kind holding `v`: it aborts when the type
is wider than `size_t` and `v` is not below the largest size, or when the type is signed and
`v` is not above 0; otherwise it returns `v` reduced to a `size_t`. -/
theorem to_size_eq (size_t_bytes : Nat) (p : TypeErasedParameter) (T : IntType)
    (hT : p.type.intType = some T) :
    to_size size_t_bytes p =
      if (T.sizeof > size_t_bytes ∧ (NumericLimits_size_t_max size_t_bytes : Int) ≤ p.value.read_int)
          ∨ (T.IsSigned = true ∧ p.value.read_int ≤ 0) then .abort
      else .ret (static_cast_size_t size_t_bytes p.value.read_int) := by
  have body : ∀ (T : IntType) (value : Int),
      (if T.sizeof > size_t_bytes ∧ ¬ value < (NumericLimits_size_t_max size_t_bytes : Int) then
          (Run.abort : Run Nat)
        else if T.IsSigned = true ∧ ¬ value > 0 then .abort
        else .ret (static_cast_size_t size_t_bytes value))
      = if (T.sizeof > size_t_bytes ∧ (NumericLimits_size_t_max size_t_bytes : Int) ≤ value)
            ∨ (T.IsSigned = true ∧ value ≤ 0) then .abort
        else .ret (static_cast_size_t size_t_bytes value) := by
    intro T value
    simp only [not_lt, gt_iff_lt]
    by_cases h1 : size_t_bytes < T.sizeof ∧ (NumericLimits_size_t_max size_t_bytes : Int) ≤ value
    · simp [h1]
    · by_cases h2 : T.IsSigned = true ∧ value ≤ 0
      · simp [h2]
      · simp [h1, h2]
  obtain ⟨value, type, formatter⟩ := p
  cases type <;> simp only [Type_.intType, Option.some.injEq, reduceCtorEq] at hT <;> subst hT <;>
    exact body _ _

/-- C1: on a 64-bit target, `to_size` aborts on a handle of kind Int32 that holds 0 (the
`VERIFY(value > 0)` of the signed kinds fires), although 0 is neither negative nor above the
size limit; the unsigned kind of the same width returns 0 for the same value. On a target
with a 4-byte `size_t`, `to_size` also aborts on a handle of kind UInt64 that holds exactly
the largest size, `2^32 - 1`, and returns `2^32 - 2`. -/
theorem to_size_signed_zero_aborts :
    to_size 8 ⟨⟨0, .int 0⟩, .Int32, .format_value (.integral 0 4 false)⟩ = .abort ∧
    to_size 8 ⟨⟨0, .int 0⟩, .UInt32, .format_value (.integral 1 4 true)⟩ = .ret 0 ∧
    to_size 4 ⟨⟨0, .int 4294967295⟩, .UInt64, .format_value (.integral 2 8 true)⟩ = .abort ∧
    to_size 4 ⟨⟨0, .int 4294967294⟩, .UInt64, .format_value (.integral 2 8 true)⟩
      = .ret 4294967294 := by
  refine ⟨?_, ?_, ?_, ?_⟩ <;> decide

/-! ## `TypeErasedFormatParams::take_next_index` -/

/-- The cursor of a registry that started at 0, after `n` calls of `take_next_index`. -/
theorem after_calls_fresh (size_t_bytes : Nat) (ps : List TypeErasedParameter) (n : Nat) :
    TypeErasedFormatParams.after_calls size_t_bytes ⟨ps, 0⟩ n
      = ⟨ps, n % 2 ^ (8 * size_t_bytes)⟩ := by
  induction n with
  | zero => simp [TypeErasedFormatParams.after_calls, Nat.zero_mod]
  | succ n ih =>
    simp [TypeErasedFormatParams.after_calls, TypeErasedFormatParams.take_next_index, ih]

/-- The `n + 1`-th call of `take_next_index` on a registry that started at 0. -/
theorem nth_call_fresh (size_t_bytes : Nat) (ps : List TypeErasedParameter) (n : Nat) :
    TypeErasedFormatParams.nth_call size_t_bytes ⟨ps, 0⟩ (n + 1) = n % 2 ^ (8 * size_t_bytes) := by
  simp [TypeErasedFormatParams.nth_call, TypeErasedFormatParams.take_next_index,
    after_calls_fresh]

/-- C2, as stated, fails: with a 4-byte `size_t`, a call of `take_next_index` at cursor
`2^32 - 1` leaves the cursor at 0, not one greater, and the `2^32 + 1`-th call on a fresh
registry returns 0, not `2^32`. -/
theorem take_next_index_wraps :
    (TypeErasedFormatParams.take_next_index 4 ⟨[], 2 ^ 32 - 1⟩).2.m_next_index ≠ (2 ^ 32 - 1) + 1 ∧
    TypeErasedFormatParams.nth_call 4 {} (2 ^ 32 + 1) ≠ (2 ^ 32 + 1) - 1 := by
  constructor
  · simp [TypeErasedFormatParams.take_next_index]
  · rw [nth_call_fresh]; norm_num

/-- C2, amended: a fresh registry has cursor 0; `take_next_index` returns the cursor held
before the call, leaves the cursor one greater modulo `2 ^ (8 * sizeof(size_t))` (one
greater as long as that is a `size_t`), and leaves `parameters()` unchanged; on a registry
that started at 0 the `n + 1`-th call returns `n` modulo `2 ^ (8 * sizeof(size_t))`, which is
`n` for every `n` below that bound, so the first three calls return 0, 1, 2. -/
theorem take_next_index_spec (size_t_bytes : Nat) (self : TypeErasedFormatParams)
    (ps : List TypeErasedParameter) (n : Nat) :
    ({} : TypeErasedFormatParams).m_next_index = 0 ∧
    (self.take_next_index size_t_bytes).1 = self.m_next_index ∧
    (self.take_next_index size_t_bytes).2.m_next_index
      = (self.m_next_index + 1) % 2 ^ (8 * size_t_bytes) ∧
    (self.m_next_index + 1 < 2 ^ (8 * size_t_bytes) →
      (self.take_next_index size_t_bytes).2.m_next_index = self.m_next_index + 1) ∧
    (self.take_next_index size_t_bytes).2.parameters = self.parameters ∧
    TypeErasedFormatParams.nth_call size_t_bytes ⟨ps, 0⟩ (n + 1) = n % 2 ^ (8 * size_t_bytes) ∧
    (n < 2 ^ (8 * size_t_bytes) →
      TypeErasedFormatParams.nth_call size_t_bytes ⟨ps, 0⟩ (n + 1) = n) ∧
    (1 ≤ size_t_bytes →
      TypeErasedFormatParams.nth_call size_t_bytes ⟨ps, 0⟩ 1 = 0 ∧
      TypeErasedFormatParams.nth_call size_t_bytes ⟨ps, 0⟩ 2 = 1 ∧
      TypeErasedFormatParams.nth_call size_t_bytes ⟨ps, 0⟩ 3 = 2) := by
  have hbig : 1 ≤ size_t_bytes → 256 ≤ 2 ^ (8 * size_t_bytes) := fun h =>
    calc 256 = 2 ^ 8 := by norm_num
      _ ≤ 2 ^ (8 * size_t_bytes) := Nat.pow_le_pow_right (by norm_num) (by omega)
  refine ⟨rfl, rfl, rfl, fun h => Nat.mod_eq_of_lt h, rfl, nth_call_fresh _ _ _, fun h => ?_,
    fun h => ⟨?_, ?_, ?_⟩⟩
  · rw [nth_call_fresh]; exact Nat.mod_eq_of_lt h
  · rw [nth_call_fresh]; exact Nat.mod_eq_of_lt (by have := hbig h; omega)
  · rw [nth_call_fresh]; exact Nat.mod_eq_of_lt (by have := hbig h; omega)
  · rw [nth_call_fresh]; exact Nat.mod_eq_of_lt (by have := hbig h; omega)

/-- C2, amended, on a 64-bit target: the bounds hold there, a call on a fresh registry leaves
the cursor at 1, the sixth call returns 5 and the first three calls return 0, 1, 2. -/
theorem take_next_index_spec_witness :
    (({} : TypeErasedFormatParams).m_next_index + 1 < 2 ^ (8 * 8) ∧
      (({} : TypeErasedFormatParams).take_next_index 8).2.m_next_index
        = ({} : TypeErasedFormatParams).m_next_index + 1) ∧
    ((5 : Nat) < 2 ^ (8 * 8) ∧ TypeErasedFormatParams.nth_call 8 ⟨[], 0⟩ (5 + 1) = 5) ∧
    ((1 : Nat) ≤ 8 ∧
      TypeErasedFormatParams.nth_call 8 ⟨[], 0⟩ 1 = 0 ∧
      TypeErasedFormatParams.nth_call 8 ⟨[], 0⟩ 2 = 1 ∧
      TypeErasedFormatParams.nth_call 8 ⟨[], 0⟩ 3 = 2) :=
  ⟨⟨by decide, (take_next_index_spec 8 {} [] 5).2.2.2.1 (by decide)⟩,
   ⟨by decide, (take_next_index_spec 8 {} [] 5).2.2.2.2.2.2.1 (by decide)⟩,
   ⟨by decide, (take_next_index_spec 8 {} [] 5).2.2.2.2.2.2.2 (by decide)⟩⟩

/-! ## `TypeErasedParameter::get_type` -/

/-- C3: `get_type` on an integral type of size 1, 2, 4 or 8 is the kind given by the table
(unsigned: UInt8, UInt16, UInt32, UInt64; signed: Int8, Int16, Int32, Int64), whatever the
type's identity; it is never Custom there, equal kinds come from equal (size, signedness),
every integer kind is reached, and every non-integral type is Custom. -/
theorem get_type_classification :
    (∀ id : Nat,
      get_type (.integral id 1 true) = some .UInt8 ∧ get_type (.integral id 2 true) = some .UInt16 ∧
      get_type (.integral id 4 true) = some .UInt32 ∧ get_type (.integral id 8 true) = some .UInt64 ∧
      get_type (.integral id 1 false) = some .Int8 ∧ get_type (.integral id 2 false) = some .Int16 ∧
      get_type (.integral id 4 false) = some .Int32 ∧
      get_type (.integral id 8 false) = some .Int64) ∧
    (∀ (id size : Nat) (u : Bool), size = 1 ∨ size = 2 ∨ size = 4 ∨ size = 8 →
      ∃ k, get_type (.integral id size u) = some k ∧ k ≠ .Custom ∧
        k.intType = some ⟨size, !u⟩) ∧
    (∀ (id id' size size' : Nat) (u u' : Bool),
      size = 1 ∨ size = 2 ∨ size = 4 ∨ size = 8 →
      size' = 1 ∨ size' = 2 ∨ size' = 4 ∨ size' = 8 →
      get_type (.integral id size u) = get_type (.integral id' size' u') →
      size = size' ∧ u = u') ∧
    (∀ k : Type_, k ≠ .Custom →
      ∃ (size : Nat) (u : Bool), (size = 1 ∨ size = 2 ∨ size = 4 ∨ size = 8) ∧
        ∀ id, get_type (.integral id size u) = some k) ∧
    (∀ T : CType, T.IsIntegral = false → get_type T = some .Custom) := by
  refine ⟨fun id => by simp [get_type, get_type_from_size], ?_, ?_, ?_, ?_⟩
  · rintro id size u (h | h | h | h) <;> subst h <;> cases u <;>
      simp [get_type, get_type_from_size, Type_.intType, u8, u16, u32, u64, i8, i16, i32, i64]
  · rintro id id' size size' u u' (h | h | h | h) (h' | h' | h' | h') <;> subst h <;> subst h' <;>
      cases u <;> cases u' <;> simp [get_type, get_type_from_size]
  · intro k hk
    cases k
    · exact ⟨1, true, by simp, fun id => by simp [get_type, get_type_from_size]⟩
    · exact ⟨2, true, by simp, fun id => by simp [get_type, get_type_from_size]⟩
    · exact ⟨4, true, by simp, fun id => by simp [get_type, get_type_from_size]⟩
    · exact ⟨8, true, by simp, fun id => by simp [get_type, get_type_from_size]⟩
    · exact ⟨1, false, by simp, fun id => by simp [get_type, get_type_from_size]⟩
    · exact ⟨2, false, by simp, fun id => by simp [get_type, get_type_from_size]⟩
    · exact ⟨4, false, by simp, fun id => by simp [get_type, get_type_from_size]⟩
    · exact ⟨8, false, by simp, fun id => by simp [get_type, get_type_from_size]⟩
    · exact absurd rfl hk
  · intro T hT
    cases T <;> simp_all [get_type, CType.IsIntegral]

/-- C3 at a 4-byte unsigned type, at two 2-byte signed types of one kind, at the kind Int16
and at the type `Error`. -/
theorem get_type_classification_witness :
    (∃ k, get_type (.integral 0 4 true) = some k ∧ k ≠ .Custom ∧ k.intType = some ⟨4, !true⟩) ∧
    (get_type (.integral 0 2 false) = get_type (.integral 1 2 false) ∧
      (2 : Nat) = 2 ∧ false = false) ∧
    (Type_.Int16 ≠ Type_.Custom ∧
      ∃ (size : Nat) (u : Bool), (size = 1 ∨ size = 2 ∨ size = 4 ∨ size = 8) ∧
        ∀ id, get_type (.integral id size u) = some .Int16) ∧
    (CType.Error.IsIntegral = false ∧ get_type .Error = some .Custom) :=
  ⟨get_type_classification.2.1 0 4 true (by decide),
   ⟨rfl, get_type_classification.2.2.1 0 1 2 2 false false (by decide) (by decide) rfl⟩,
   ⟨by decide, get_type_classification.2.2.2.1 .Int16 (by decide)⟩,
   ⟨rfl, get_type_classification.2.2.2.2 .Error rfl⟩⟩

/-! ## `StandardFormatter` -/

/-- C9: a default-constructed `StandardFormatter` has fill `' '`, alignment Default, sign
mode OnlyIfNeeded (the same value as `SignMode::Default`), mode Default, no alternate form,
no zero-pad, and neither width nor precision. -/
theorem StandardFormatter_default :
    ({} : StandardFormatter).m_fill = ' ' ∧
    ({} : StandardFormatter).m_align = .Default ∧
    ({} : StandardFormatter).m_sign_mode = .OnlyIfNeeded ∧
    FormatBuilder.SignMode.Default = FormatBuilder.SignMode.OnlyIfNeeded ∧
    ({} : StandardFormatter).m_mode = .Default ∧
    ({} : StandardFormatter).m_alternative_form = false ∧
    ({} : StandardFormatter).m_zero_pad = false ∧
    ({} : StandardFormatter).m_width = none ∧
    ({} : StandardFormatter).m_precision = none :=
  ⟨rfl, rfl, rfl, rfl, rfl, rfl, rfl, rfl, rfl⟩

end Jakt

namespace Jakt
open TypeErasedParameter

/-! ## `Formatter<T*>`, `Formatter<std::nullptr_t>`, `Formatter<ReadonlyBytes>` -/

/-- C6: `Formatter<T*>::format` and `Formatter<std::nullptr_t>::format` return what the
address-sized integer formatter returns for the pointer's address (0 for `nullptr`) under
the parsed specification with mode Default replaced by Pointer, every other mode and every
other field kept. -/
theorem Formatter_pointer_format_spec (Formatter_FlatPtr_format : IntegralFormat)
    (self : StandardFormatter) (builder : FormatBuilder) (value : Nat) :
    Formatter_pointer.format Formatter_FlatPtr_format self builder value
      = Formatter_FlatPtr_format
          { m_align := self.m_align, m_sign_mode := self.m_sign_mode,
            m_mode := if self.m_mode = .Default then .Pointer else self.m_mode,
            m_alternative_form := self.m_alternative_form, m_fill := self.m_fill,
            m_zero_pad := self.m_zero_pad, m_width := self.m_width,
            m_precision := self.m_precision } builder value ∧
    Formatter_nullptr_t.format Formatter_FlatPtr_format self builder
      = Formatter_FlatPtr_format
          { m_align := self.m_align, m_sign_mode := self.m_sign_mode,
            m_mode := if self.m_mode = .Default then .Pointer else self.m_mode,
            m_alternative_form := self.m_alternative_form, m_fill := self.m_fill,
            m_zero_pad := self.m_zero_pad, m_width := self.m_width,
            m_precision := self.m_precision } builder 0 := by
  constructor <;>
    · simp only [Formatter_pointer.format, Formatter_nullptr_t.format]
      split_ifs <;> rfl

/-- C7: `Formatter<ReadonlyBytes>::format` in mode Pointer returns what the address-sized
integer formatter returns for the span's data address under the same specification; in mode
Default or HexDump what the string formatter returns for the bytes under the specification
with mode HexDump; in every other mode what the string formatter returns for the bytes
under the same specification. -/
theorem Formatter_ReadonlyBytes_format_spec (Formatter_FlatPtr_format : IntegralFormat)
    (Formatter_StringView_format : StringViewFormat)
    (self : StandardFormatter) (builder : FormatBuilder) (value : ReadonlyBytes) :
    (self.m_mode = .Pointer →
      Formatter_ReadonlyBytes.format Formatter_FlatPtr_format Formatter_StringView_format
          self builder value
        = Formatter_FlatPtr_format self builder value.data) ∧
    (self.m_mode = .Default ∨ self.m_mode = .HexDump →
      Formatter_ReadonlyBytes.format Formatter_FlatPtr_format Formatter_StringView_format
          self builder value
        = Formatter_StringView_format
            { m_align := self.m_align, m_sign_mode := self.m_sign_mode, m_mode := .HexDump,
              m_alternative_form := self.m_alternative_form, m_fill := self.m_fill,
              m_zero_pad := self.m_zero_pad, m_width := self.m_width,
              m_precision := self.m_precision } builder value.bytes) ∧
    (self.m_mode ≠ .Pointer → self.m_mode ≠ .Default → self.m_mode ≠ .HexDump →
      Formatter_ReadonlyBytes.format Formatter_FlatPtr_format Formatter_StringView_format
          self builder value
        = Formatter_StringView_format self builder value.bytes) := by
  refine ⟨fun h => ?_, fun h => ?_, fun h1 h2 h3 => ?_⟩
  · simp [Formatter_ReadonlyBytes.format, h]
  · have hp : self.m_mode ≠ .Pointer := by rcases h with h | h <;> simp [h]
    simp [Formatter_ReadonlyBytes.format, hp, h, ReadonlyBytes.to_string_view]
  · simp [Formatter_ReadonlyBytes.format, h1, h2, h3, ReadonlyBytes.to_string_view]

/-- C7 at the modes Pointer, Default and Decimal, with an integer formatter that writes `i`
and a string formatter that writes `s`. -/
theorem Formatter_ReadonlyBytes_format_spec_witness :
    Formatter_ReadonlyBytes.format sample_integral_format sample_string_format
        { m_mode := .Pointer } sample_builder ⟨4096, ['a']⟩
      = sample_integral_format { m_mode := .Pointer } sample_builder 4096 ∧
    Formatter_ReadonlyBytes.format sample_integral_format sample_string_format
        {} sample_builder ⟨4096, ['a']⟩
      = sample_string_format { m_mode := .HexDump } sample_builder ['a'] ∧
    Formatter_ReadonlyBytes.format sample_integral_format sample_string_format
        { m_mode := .Decimal } sample_builder ⟨4096, ['a']⟩
      = sample_string_format { m_mode := .Decimal } sample_builder ['a'] :=
  ⟨(Formatter_ReadonlyBytes_format_spec sample_integral_format sample_string_format
      { m_mode := .Pointer } sample_builder ⟨4096, ['a']⟩).1 rfl,
   (Formatter_ReadonlyBytes_format_spec sample_integral_format sample_string_format
      {} sample_builder ⟨4096, ['a']⟩).2.1 (Or.inl rfl),
   (Formatter_ReadonlyBytes_format_spec sample_integral_format sample_string_format
      { m_mode := .Decimal } sample_builder ⟨4096, ['a']⟩).2.2 (by decide) (by decide)
      (by decide)⟩

/-! ## `__format_value` -/

/-- When `parse` returns, `__format_value` runs its three statements and its outcome is the
outcome of `format` on the parsed formatter. -/
theorem format_value_steps_ret {σ : Type} (F : Formatter σ) (params : TypeErasedFormatParams)
    (builder : FormatBuilder) (parser : FormatParser) (value : Ref)
    (formatter : σ) (params' : TypeErasedFormatParams) (parser' : FormatParser)
    (hp : F.parse F.init params parser = .ret (formatter, params', parser')) :
    __format_value_steps F params builder parser value
      = ([.construct, .parse, .format],
          (F.format formatter builder value).bind
            (fun r => .ret ⟨r.1, params', r.2, parser'⟩)) := by
  unfold __format_value_steps
  simp only [hp]
  cases hf : F.format formatter builder value with
  | ret r => rfl
  | abort => rfl
  | rejected => rfl
  | outOfFuel => rfl

/-- When `parse` does not return, `__format_value` stops after it and does not return. -/
theorem format_value_steps_not_ret {σ : Type} (F : Formatter σ)
    (params : TypeErasedFormatParams) (builder : FormatBuilder) (parser : FormatParser)
    (value : Ref) (hp : ∀ x, F.parse F.init params parser ≠ .ret x) :
    (__format_value_steps F params builder parser value).1 = [.construct, .parse] ∧
    ∀ y, (__format_value_steps F params builder parser value).2 ≠ .ret y := by
  unfold __format_value_steps
  cases hq : F.parse F.init params parser with
  | ret x => exact absurd hq (hp x)
  | abort => simp only [hq]; exact ⟨trivial, fun y h => by cases h⟩
  | rejected => simp only [hq]; exact ⟨trivial, fun y h => by cases h⟩
  | outOfFuel => simp only [hq]; exact ⟨trivial, fun y h => by cases h⟩

/-- When a `VERIFY` fires in `parse`, `__format_value` stops after it with that abort. -/
theorem format_value_steps_abort {σ : Type} (F : Formatter σ)
    (params : TypeErasedFormatParams) (builder : FormatBuilder) (parser : FormatParser)
    (value : Ref) (hp : F.parse F.init params parser = .abort) :
    __format_value_steps F params builder parser value = ([.construct, .parse], .abort) := by
  unfold __format_value_steps
  simp only [hp]

/-- The outcome of `format` followed by the packing of the adapter's result is a returned
result exactly when `format` returned that result and that sink. -/
theorem bind_pack_eq_ret (r : Rendered) (params : TypeErasedFormatParams)
    (parser : FormatParser) (result : ErrorOr Unit) (builder : FormatBuilder) :
    r.bind (fun x => .ret (⟨x.1, params, x.2, parser⟩ : Formatted))
        = .ret ⟨result, params, builder, parser⟩
      ↔ r = .ret (result, builder) := by
  cases r with
  | ret x =>
    obtain ⟨res, b⟩ := x
    simp [Run.bind]
  | abort => simp [Run.bind]
  | rejected => simp [Run.bind]
  | outOfFuel => simp [Run.bind]

/-- C5, as stated, fails: at `strict_formatter` and the directive `q` the adapter runs
`parse` and never runs `format` (a `VERIFY` fires in `parse`), and its outcome, an abort, is
not the result of the render step, which returns success on every formatter state. -/
theorem format_value_render_not_run :
    (__format_value_steps strict_formatter {} sample_builder ⟨['q']⟩ ⟨0, .other 0⟩).1
      = [.construct, .parse] ∧
    Step.format ∉
      (__format_value_steps strict_formatter {} sample_builder ⟨['q']⟩ ⟨0, .other 0⟩).1 ∧
    (∀ formatter, strict_formatter.format formatter sample_builder ⟨0, .other 0⟩
      = .ret (.ok (), ⟨⟨['v'], 99⟩⟩)) ∧
    ¬ ∃ params parser,
      __format_value strict_formatter {} sample_builder ⟨['q']⟩ ⟨0, .other 0⟩
        = .ret ⟨.ok (), params, ⟨⟨['v'], 99⟩⟩, parser⟩ := by
  have h : __format_value strict_formatter {} sample_builder ⟨['q']⟩ ⟨0, .other 0⟩ = .abort := by
    decide
  refine ⟨by decide, by decide, fun formatter => rfl, ?_⟩
  rintro ⟨params, parser, h'⟩
  rw [h] at h'
  cases h'

/-- C5, amended: `__format_value<T>` constructs the formatter and runs its `parse` exactly
once. If `parse` returns, it then runs `format` exactly once, and the adapter's outcome is
the outcome of `format` on the parsed formatter, the builder and the value: it returns
success iff `format` does, and a failure of `format` is returned unchanged. If `parse` does
not return (a `VERIFY` fired), `format` is not run and the adapter does not return. -/
theorem format_value_runs_parse_then_format {σ : Type} (F : Formatter σ)
    (params : TypeErasedFormatParams) (builder : FormatBuilder) (parser : FormatParser)
    (value : Ref) :
    ((__format_value_steps F params builder parser value).1 = [.construct, .parse, .format] ∨
      (__format_value_steps F params builder parser value).1 = [.construct, .parse]) ∧
    (∀ formatter params' parser',
      F.parse F.init params parser = .ret (formatter, params', parser') →
      (__format_value_steps F params builder parser value).1 = [.construct, .parse, .format] ∧
      __format_value F params builder parser value
        = (F.format formatter builder value).bind
            (fun r => .ret ⟨r.1, params', r.2, parser'⟩) ∧
      (∀ builder', F.format formatter builder value = .ret (.ok (), builder') ↔
        __format_value F params builder parser value
          = .ret ⟨.ok (), params', builder', parser'⟩) ∧
      (∀ e builder', F.format formatter builder value = .ret (.error e, builder') ↔
        __format_value F params builder parser value
          = .ret ⟨.error e, params', builder', parser'⟩)) ∧
    ((∀ x, F.parse F.init params parser ≠ .ret x) →
      (__format_value_steps F params builder parser value).1 = [.construct, .parse] ∧
      ∀ y, __format_value F params builder parser value ≠ .ret y) := by
  refine ⟨?_, ?_, format_value_steps_not_ret F params builder parser value⟩
  · by_cases hx : ∃ x, F.parse F.init params parser = .ret x
    · obtain ⟨⟨formatter, params', parser'⟩, hp⟩ := hx
      exact Or.inl (by rw [format_value_steps_ret F _ _ _ _ _ _ _ hp])
    · exact Or.inr
        (format_value_steps_not_ret F params builder parser value fun x hp => hx ⟨x, hp⟩).1
  · intro formatter params' parser' hp
    have hs := format_value_steps_ret F params builder parser value _ _ _ hp
    refine ⟨by rw [hs], by rw [__format_value, hs], fun builder' => ?_, fun e builder' => ?_⟩
    · rw [__format_value, hs]
      exact (bind_pack_eq_ret _ _ _ _ _).symm
    · rw [__format_value, hs]
      exact (bind_pack_eq_ret _ _ _ _ _).symm

/-- C5, amended, at `strict_formatter`: with the empty directive `parse` returns, the three
statements run in order and the adapter returns the success of `format` with `v` written to
the sink; with the directive `q` no `parse` result exists, `format` is not run and the
adapter does not return. -/
theorem format_value_runs_parse_then_format_witness :
    (strict_formatter.parse strict_formatter.init {} ⟨[]⟩ = .ret ({}, {}, ⟨[]⟩) ∧
      (__format_value_steps strict_formatter {} sample_builder ⟨[]⟩ ⟨0, .other 0⟩).1
        = [.construct, .parse, .format] ∧
      __format_value strict_formatter {} sample_builder ⟨[]⟩ ⟨0, .other 0⟩
        = (strict_formatter.format {} sample_builder ⟨0, .other 0⟩).bind
            (fun r => .ret ⟨r.1, {}, r.2, ⟨[]⟩⟩) ∧
      __format_value strict_formatter {} sample_builder ⟨[]⟩ ⟨0, .other 0⟩
        = .ret ⟨.ok (), {}, ⟨⟨['v'], 99⟩⟩, ⟨[]⟩⟩) ∧
    ((∀ x, strict_formatter.parse strict_formatter.init {} ⟨['q']⟩ ≠ .ret x) ∧
      (__format_value_steps strict_formatter {} sample_builder ⟨['q']⟩ ⟨0, .other 0⟩).1
        = [.construct, .parse] ∧
      ∀ y, __format_value strict_formatter {} sample_builder ⟨['q']⟩ ⟨0, .other 0⟩ ≠ .ret y) :=
  have h := (format_value_runs_parse_then_format strict_formatter {} sample_builder ⟨[]⟩
    ⟨0, .other 0⟩).2.1 {} {} ⟨[]⟩ rfl
  have hq : ∀ x, strict_formatter.parse strict_formatter.init {} ⟨['q']⟩ ≠ .ret x :=
    fun x hx => by cases hx
  ⟨⟨rfl, h.1, h.2.1, (h.2.2.1 ⟨⟨['v'], 99⟩⟩).mp rfl⟩,
   ⟨hq, (format_value_runs_parse_then_format strict_formatter {} sample_builder ⟨['q']⟩
      ⟨0, .other 0⟩).2.2 hq⟩⟩

/-- C4, as stated, fails: `strict_formatter` rejects the directive `q` (its `parse` does not
return), and the adapter does not return a failure: it does not return at all. -/
theorem format_value_parse_rejection_not_returned :
    strict_formatter.parse strict_formatter.init {} ⟨['q']⟩ = .abort ∧
    __format_value strict_formatter {} sample_builder ⟨['q']⟩ ⟨0, .other 0⟩ = .abort ∧
    ¬ ∃ e params builder parser,
      __format_value strict_formatter {} sample_builder ⟨['q']⟩ ⟨0, .other 0⟩
        = .ret ⟨.error e, params, builder, parser⟩ := by
  refine ⟨by decide, by decide, ?_⟩
  rintro ⟨e, params, builder, parser, h⟩
  have h' : __format_value strict_formatter {} sample_builder ⟨['q']⟩ ⟨0, .other 0⟩ = .abort := by
    decide
  rw [h'] at h
  exact absurd h (by simp)

/-- C4, amended: `parse` returns nothing to the adapter. If `parse` does not return because
a `VERIFY` fired, the adapter does not return either. Whenever `parse` returns, the adapter
returns the render step's result: its outcome is the outcome of `format` on the parsed
formatter, a success of `format` is returned as success and a failure of `format` as that
failure, with the sink as `format` left it. So every failure the adapter returns is the
failure that `format` returned, after a `parse` that returned. -/
theorem format_value_failure_is_from_format {σ : Type} (F : Formatter σ)
    (params : TypeErasedFormatParams) (builder : FormatBuilder) (parser : FormatParser)
    (value : Ref) :
    (F.parse F.init params parser = .abort →
      __format_value F params builder parser value = .abort) ∧
    (∀ formatter params' parser',
      F.parse F.init params parser = .ret (formatter, params', parser') →
      __format_value F params builder parser value
        = (F.format formatter builder value).bind
            (fun r => .ret ⟨r.1, params', r.2, parser'⟩) ∧
      (∀ result builder', F.format formatter builder value = .ret (result, builder') →
        __format_value F params builder parser value
          = .ret ⟨result, params', builder', parser'⟩) ∧
      ((∀ x, F.format formatter builder value ≠ .ret x) →
        ∀ y, __format_value F params builder parser value ≠ .ret y)) ∧
    (∀ e params' builder' parser',
      __format_value F params builder parser value = .ret ⟨.error e, params', builder', parser'⟩ →
      ∃ formatter, F.parse F.init params parser = .ret (formatter, params', parser') ∧
        F.format formatter builder value = .ret (.error e, builder')) := by
  refine ⟨fun hp => ?_, fun formatter params' parser' hp => ?_,
    fun e params' builder' parser' h => ?_⟩
  · rw [__format_value, format_value_steps_abort F _ _ _ _ hp]
  · have hs := format_value_steps_ret F params builder parser value _ _ _ hp
    refine ⟨by rw [__format_value, hs], fun result builder' hf => ?_, fun hf y => ?_⟩
    · rw [__format_value, hs, hf]; rfl
    · rw [__format_value, hs]
      cases hr : F.format formatter builder value with
      | ret x => exact absurd hr (hf x)
      | abort => intro h; cases h
      | rejected => intro h; cases h
      | outOfFuel => intro h; cases h
  · by_cases hx : ∃ x, F.parse F.init params parser = .ret x
    · obtain ⟨⟨formatter, ps, pr⟩, hp⟩ := hx
      have hs := format_value_steps_ret F params builder parser value _ _ _ hp
      rw [__format_value, hs] at h
      cases hf : F.format formatter builder value with
      | ret r =>
        obtain ⟨res, b⟩ := r
        simp only [hf, Run.bind, Run.ret.injEq, Formatted.mk.injEq] at h
        obtain ⟨h1, h2, h3, h4⟩ := h
        subst h1 h2 h3 h4
        exact ⟨formatter, hp, hf⟩
      | abort => simp [hf, Run.bind] at h
      | rejected => simp [hf, Run.bind] at h
      | outOfFuel => simp [hf, Run.bind] at h
    · exact absurd h
        ((format_value_steps_not_ret F params builder parser value
          fun x hp => hx ⟨x, hp⟩).2 _)

/-- C4, amended, at `strict_formatter`: on the directive `q` its `parse` aborts and so does
the adapter; on the empty directive `parse` returns and the adapter returns what `format`
returns, success with `v` written when the sink has room and the failure of `format` when
the sink is full. -/
theorem format_value_failure_is_from_format_witness :
    (strict_formatter.parse strict_formatter.init {} ⟨['q']⟩ = .abort ∧
      __format_value strict_formatter {} sample_builder ⟨['q']⟩ ⟨0, .other 0⟩ = .abort) ∧
    (strict_formatter.parse strict_formatter.init {} ⟨[]⟩ = .ret ({}, {}, ⟨[]⟩) ∧
      strict_formatter.format {} sample_builder ⟨0, .other 0⟩ = .ret (.ok (), ⟨⟨['v'], 99⟩⟩) ∧
      __format_value strict_formatter {} sample_builder ⟨[]⟩ ⟨0, .other 0⟩
        = .ret ⟨.ok (), {}, ⟨⟨['v'], 99⟩⟩, ⟨[]⟩⟩) ∧
    (__format_value strict_formatter {} ⟨⟨[], 0⟩⟩ ⟨[]⟩ ⟨0, .other 0⟩
        = .ret ⟨.error ⟨ENOMEM⟩, {}, ⟨⟨[], 0⟩⟩, ⟨[]⟩⟩ ∧
      ∃ formatter,
        strict_formatter.parse strict_formatter.init {} ⟨[]⟩ = .ret (formatter, {}, ⟨[]⟩) ∧
        strict_formatter.format formatter ⟨⟨[], 0⟩⟩ ⟨0, .other 0⟩
          = .ret (.error ⟨ENOMEM⟩, ⟨⟨[], 0⟩⟩)) :=
  ⟨⟨rfl, (format_value_failure_is_from_format strict_formatter {} sample_builder ⟨['q']⟩
      ⟨0, .other 0⟩).1 rfl⟩,
   ⟨rfl, rfl, ((format_value_failure_is_from_format strict_formatter {} sample_builder ⟨[]⟩
      ⟨0, .other 0⟩).2.1 {} {} ⟨[]⟩ rfl).2.1 (.ok ()) ⟨⟨['v'], 99⟩⟩ rfl⟩,
   ⟨rfl, (format_value_failure_is_from_format strict_formatter {} ⟨⟨[], 0⟩⟩ ⟨[]⟩
      ⟨0, .other 0⟩).2.2 ⟨ENOMEM⟩ {} ⟨⟨[], 0⟩⟩ ⟨[]⟩ rfl⟩⟩

/-! ## `VariadicFormatParams` -/

/-- The initializer of `m_data` is defined as soon as every argument type has a kind. -/
theorem m_data_isSome (parameters : List Arg)
    (h : ∀ a ∈ parameters, (get_type a.T).isSome = true) :
    ∃ handles, VariadicFormatParams.m_data parameters = some handles := by
  induction parameters with
  | nil => exact ⟨[], rfl⟩
  | cons a rest ih =>
    obtain ⟨handles, hrest⟩ := ih fun b hb => h b (List.mem_cons_of_mem a hb)
    obtain ⟨type, htype⟩ := Option.isSome_iff_exists.mp (h a (List.mem_cons_self a rest))
    exact ⟨⟨a.ref, type, .format_value a.T⟩ :: handles, by
      simp [VariadicFormatParams.m_data, htype, hrest]⟩

/-- The handles of `m_data`, one per argument and in argument order. -/
theorem m_data_spec (parameters : List Arg) :
    ∀ handles, VariadicFormatParams.m_data parameters = some handles →
      handles.length = parameters.length ∧
      ∀ (i : Nat) (a : Arg), parameters[i]? = some a →
        ∃ type, get_type a.T = some type ∧
          handles[i]? = some ⟨a.ref, type, .format_value a.T⟩ := by
  induction parameters with
  | nil =>
    intro handles h
    simp only [VariadicFormatParams.m_data, Option.some.injEq] at h
    subst h
    exact ⟨rfl, fun i a hi => by simp at hi⟩
  | cons a rest ih =>
    intro handles h
    unfold VariadicFormatParams.m_data at h
    cases htype : get_type a.T with
    | none => simp [htype] at h
    | some type =>
      cases hrest : VariadicFormatParams.m_data rest with
      | none => simp [htype, hrest] at h
      | some hs =>
        simp only [htype, hrest, Option.some.injEq] at h
        subst h
        obtain ⟨hlen, hget⟩ := ih hs hrest
        refine ⟨by simp [hlen], fun i b hi => ?_⟩
        cases i with
        | zero =>
          simp only [List.getElem?_cons_zero, Option.some.injEq] at hi
          subst hi
          exact ⟨type, htype, by simp⟩
        | succ j =>
          simp only [List.getElem?_cons_succ] at hi
          obtain ⟨t, ht, hj⟩ := hget j b hi
          exact ⟨t, ht, by simpa using hj⟩

/-- C8: for a pack of at most 256 arguments whose types all have a kind,
`VariadicFormatParams` builds a registry with one handle per argument, in argument order;
the handle of an argument holds the reference to that argument itself, the kind `get_type`
gives for its type and the adapter `__format_value` of its type; the cursor is 0. A pack of
more than 256 arguments is rejected, and no registry built holds more than 256 handles. -/
theorem VariadicFormatParams_spec (parameters : List Arg) :
    (parameters.length ≤ 256 → (∀ a ∈ parameters, (get_type a.T).isSome = true) →
      ∃ registry, VariadicFormatParams parameters = some registry ∧
        registry.parameters.length = parameters.length ∧
        registry.m_next_index = 0 ∧
        ∀ (i : Nat) (a : Arg), parameters[i]? = some a →
          ∃ type, get_type a.T = some type ∧
            registry.parameters[i]? = some ⟨a.ref, type, .format_value a.T⟩) ∧
    (256 < parameters.length → VariadicFormatParams parameters = none) ∧
    (∀ registry, VariadicFormatParams parameters = some registry →
      registry.parameters.length ≤ 256 ∧ registry.parameters.length = parameters.length) := by
  refine ⟨fun hlen hkind => ?_, fun hlen => ?_, fun registry h => ?_⟩
  · obtain ⟨handles, hdata⟩ := m_data_isSome parameters hkind
    obtain ⟨hl, hget⟩ := m_data_spec parameters handles hdata
    refine ⟨⟨handles, 0⟩, ?_, hl, rfl, hget⟩
    simp [VariadicFormatParams, max_format_arguments, hlen, hdata,
      TypeErasedFormatParams.set_parameters]
  · simp [VariadicFormatParams, max_format_arguments, Nat.not_le.mpr hlen]
  · unfold VariadicFormatParams at h
    by_cases hlen : parameters.length ≤ max_format_arguments
    · cases hdata : VariadicFormatParams.m_data parameters with
      | none => simp [hlen, hdata] at h
      | some handles =>
        simp only [hlen, hdata, if_true, Option.some.injEq] at h
        subst h
        obtain ⟨hl, _⟩ := m_data_spec parameters handles hdata
        simp only [TypeErasedFormatParams.parameters, TypeErasedFormatParams.set_parameters]
        exact ⟨by rw [hl]; exact hlen, hl⟩
    · simp [hlen] at h

/-- C8 at a pack of an `int`, an `Error` and an unsigned byte: three handles, cursor 0, the
second handle refers to the `Error` argument at its address, with kind Custom and the
adapter of `Error`; the pack of 257 arguments is rejected. -/
theorem VariadicFormatParams_spec_witness :
    (∃ registry,
      VariadicFormatParams [⟨.integral 0 4 false, ⟨16, .int 5⟩⟩, ⟨.Error, ⟨32, .Error 2⟩⟩,
          ⟨.integral 1 1 true, ⟨48, .int 7⟩⟩] = some registry ∧
        registry.parameters.length = 3 ∧
        registry.m_next_index = 0 ∧
        ∃ type, get_type .Error = some type ∧
          registry.parameters[1]? = some ⟨⟨32, .Error 2⟩, type, .format_value .Error⟩) ∧
    (256 < (List.replicate 257 (⟨.other 0, ⟨0, .other 0⟩⟩ : Arg)).length ∧
      VariadicFormatParams (List.replicate 257 ⟨.other 0, ⟨0, .other 0⟩⟩) = none) :=
  ⟨match (VariadicFormatParams_spec [⟨.integral 0 4 false, ⟨16, .int 5⟩⟩,
        ⟨.Error, ⟨32, .Error 2⟩⟩, ⟨.integral 1 1 true, ⟨48, .int 7⟩⟩]).1
        (by decide) (by decide) with
    | ⟨registry, h1, h2, h3, h4⟩ => ⟨registry, h1, h2, h3, h4 1 ⟨.Error, ⟨32, .Error 2⟩⟩ rfl⟩,
   ⟨by rw [List.length_replicate]; norm_num,
    (VariadicFormatParams_spec (List.replicate 257 ⟨.other 0, ⟨0, .other 0⟩⟩)).2.1
      (by rw [List.length_replicate]; norm_num)⟩⟩

end Jakt

namespace Jakt
open TypeErasedParameter

/-! ## The driver on the three templates of the header -/

/-- The characters of the template of the value state. -/
theorem template_value : "\x7b\x7b\x7b\x7d\x7d\x7d".toList
    = [lbrace, lbrace, lbrace, rbrace, rbrace, rbrace] := by decide

/-- The characters of the template of the error state. -/
theorem template_error : "\x7b\x7d".toList = [lbrace, rbrace] := by decide

/-- The characters of the template of `Formatter<Error>`. -/
theorem template_code : "Error(code=\x7b\x7d)".toList
    = "Error(code=".toList ++ [lbrace, rbrace, ')'] := by decide

/-- The driver on the template `{}` with one handle: the rendering of the handle under the
empty directive, the cursor having moved from 0 to 1. -/
theorem vformat_placeholder {σ : Type} (env : Env σ) (depth : Nat) (builder : FormatBuilder)
    (handle : TypeErasedParameter) :
    vformat env (depth + 1) builder [lbrace, rbrace] ⟨[handle], 0⟩
      = rendered (dispatch env (vformat env depth) handle [] builder
          ⟨[handle], 1 % 2 ^ (8 * env.size_t_bytes)⟩) := by
  simp only [vformat, vformat_impl, next_token, take_placeholder, drop_params, rendered,
    TypeErasedFormatParams.take_next_index, TypeErasedFormatParams.parameters, lbrace, rbrace]
  simp
  cases dispatch env (vformat env depth) handle [] builder
      ⟨[handle], 1 % 2 ^ (8 * env.size_t_bytes)⟩ with
  | ret f =>
    obtain ⟨result, params, b, parser⟩ := f
    cases result <;> simp [Run.bind]
  | abort => rfl
  | rejected => rfl
  | outOfFuel => rfl

/-- The call `put_literal` always returns. -/
theorem put_literal_returns (builder : FormatBuilder) (text : List Char) :
    ∃ result builder', builder.put_literal text = .ret (result, builder') :=
  ⟨_, _, rfl⟩

/-- One step of the scan at a literal piece. -/
theorem vformat_impl_literal (size_t_bytes : Nat) (d : Dispatch) (steps : Nat)
    (builder : FormatBuilder) (params : TypeErasedFormatParams) (c : Char) (cs : List Char)
    (text rest : List Char) (h : next_token (c :: cs) = some (.literal text, rest)) :
    vformat_impl size_t_bytes d (steps + 1) builder params (c :: cs)
      = (builder.put_literal text).bind fun r =>
          match r.1 with
          | .ok () => vformat_impl size_t_bytes d steps r.2 params rest
          | .error e => .ret (.error e, r.2, params) := by
  rw [vformat_impl]
  simp only [h]

/-- One step of the scan at an unindexed placeholder whose index is in range. -/
theorem vformat_impl_placeholder (size_t_bytes : Nat) (d : Dispatch) (steps : Nat)
    (builder : FormatBuilder) (params : TypeErasedFormatParams) (c : Char) (cs : List Char)
    (directive rest : List Char) (handle : TypeErasedParameter)
    (h : next_token (c :: cs) = some (.placeholder none directive, rest))
    (hi : params.m_parameters[params.m_next_index]? = some handle) :
    vformat_impl size_t_bytes d (steps + 1) builder params (c :: cs)
      = (d handle directive builder (params.take_next_index size_t_bytes).2).bind fun f =>
          match f.result with
          | .ok () => vformat_impl size_t_bytes d steps f.builder f.params rest
          | .error e => .ret (.error e, f.builder, f.params) := by
  rw [vformat_impl]
  simp only [h]
  have : (params.take_next_index size_t_bytes).2.parameters[
      (params.take_next_index size_t_bytes).1]? = some handle := hi
  simp only [List.get?_eq_getElem?, this]

/-- The scan ends at the end of the template. -/
theorem vformat_impl_done (size_t_bytes : Nat) (d : Dispatch) (steps : Nat)
    (builder : FormatBuilder) (params : TypeErasedFormatParams) :
    vformat_impl size_t_bytes d (steps + 1) builder params []
      = .ret (.ok (), builder, params) := by
  rw [vformat_impl]

/-- The driver on the template `{{{}}}` with one handle: `{`, then the rendering of the
handle under the empty directive, then `}`. -/
theorem vformat_braced_placeholder {σ : Type} (env : Env σ) (depth : Nat)
    (builder : FormatBuilder) (handle : TypeErasedParameter) :
    vformat env (depth + 1) builder [lbrace, lbrace, lbrace, rbrace, rbrace, rbrace]
        ⟨[handle], 0⟩
      = and_then (builder.put_literal [lbrace]) fun builder =>
          and_then (rendered (dispatch env (vformat env depth) handle [] builder
            ⟨[handle], 1 % 2 ^ (8 * env.size_t_bytes)⟩)) fun builder =>
          builder.put_literal [rbrace] := by
  have t1 : next_token [lbrace, lbrace, lbrace, rbrace, rbrace, rbrace]
      = some (.literal [lbrace], [lbrace, rbrace, rbrace, rbrace]) := by decide
  have t2 : next_token [lbrace, rbrace, rbrace, rbrace]
      = some (.placeholder none [], [rbrace, rbrace]) := by decide
  have t3 : next_token [rbrace, rbrace] = some (.literal [rbrace], []) := by decide
  simp only [vformat, List.length_cons, List.length_nil]
  rw [vformat_impl_literal _ _ _ _ _ _ _ _ _ t1]
  obtain ⟨r1, b1, h1⟩ := put_literal_returns builder [lbrace]
  rw [h1]
  cases r1 with
  | error e => rfl
  | ok u =>
    simp only [Run.bind, and_then]
    rw [vformat_impl_placeholder _ _ _ _ ⟨[handle], 0⟩ _ _ _ _ handle t2 rfl]
    simp only [TypeErasedFormatParams.take_next_index, Nat.zero_add]
    cases dispatch env (vformat env depth) handle [] b1
        ⟨[handle], 1 % 2 ^ (8 * env.size_t_bytes)⟩ with
    | ret f =>
      obtain ⟨result, params, b2, parser⟩ := f
      cases result with
      | error e => rfl
      | ok u =>
        simp only [Run.bind, rendered]
        rw [vformat_impl_literal _ _ _ _ _ _ _ _ _ t3]
        obtain ⟨r3, b3, h3⟩ := put_literal_returns b2 [rbrace]
        rw [h3]
        cases r3 with
        | error e => rfl
        | ok u => simp only [Run.bind]; rw [vformat_impl_done]; rfl
    | abort => rfl
    | rejected => rfl
    | outOfFuel => rfl

/-- The driver on the template `Error(code={})` with one handle: `Error(code=`, then the
rendering of the handle under the empty directive, then `)`. -/
theorem vformat_error_code {σ : Type} (env : Env σ) (depth : Nat)
    (builder : FormatBuilder) (handle : TypeErasedParameter) :
    vformat env (depth + 1) builder ("Error(code=".toList ++ [lbrace, rbrace, ')'])
        ⟨[handle], 0⟩
      = and_then (builder.put_literal "Error(code=".toList) fun builder =>
          and_then (rendered (dispatch env (vformat env depth) handle [] builder
            ⟨[handle], 1 % 2 ^ (8 * env.size_t_bytes)⟩)) fun builder =>
          builder.put_literal [')'] := by
  have t1 : next_token ('E' :: ("rror(code=".toList ++ [lbrace, rbrace, ')']))
      = some (.literal "Error(code=".toList, [lbrace, rbrace, ')']) := by decide
  have t2 : next_token [lbrace, rbrace, ')'] = some (.placeholder none [], [')']) := by decide
  have t3 : next_token [')'] = some (.literal [')'], []) := by decide
  have hlen : ("Error(code=".toList ++ [lbrace, rbrace, ')']).length = 14 := by decide
  have hs : "Error(code=".toList ++ [lbrace, rbrace, ')']
      = 'E' :: ("rror(code=".toList ++ [lbrace, rbrace, ')']) := by decide
  simp only [vformat, hlen]
  rw [hs, vformat_impl_literal _ _ _ _ _ _ _ _ _ t1]
  obtain ⟨r1, b1, h1⟩ := put_literal_returns builder "Error(code=".toList
  rw [h1]
  cases r1 with
  | error e => rfl
  | ok u =>
    simp only [Run.bind, and_then]
    rw [vformat_impl_placeholder _ _ _ _ ⟨[handle], 0⟩ _ _ _ _ handle t2 rfl]
    simp only [TypeErasedFormatParams.take_next_index, Nat.zero_add]
    cases dispatch env (vformat env depth) handle [] b1
        ⟨[handle], 1 % 2 ^ (8 * env.size_t_bytes)⟩ with
    | ret f =>
      obtain ⟨result, params, b2, parser⟩ := f
      cases result with
      | error e => rfl
      | ok u =>
        simp only [Run.bind, rendered]
        rw [vformat_impl_literal _ _ _ _ _ _ _ _ _ t3]
        obtain ⟨r3, b3, h3⟩ := put_literal_returns b2 [')']
        rw [h3]
        cases r3 with
        | error e => rfl
        | ok u => simp only [Run.bind]; rw [vformat_impl_done]; rfl
    | abort => rfl
    | rejected => rfl
    | outOfFuel => rfl

/-- The call `Formatter<FormatString>::format` with one argument whose type has a kind: one call of
the driver, on a fresh registry of one handle. -/
theorem Formatter_FormatString_format_one (V : Driver) (builder : FormatBuilder)
    (fmtstr : StringView) (a : Arg) (kind : Type_) (h : get_type a.T = some kind) :
    Formatter_FormatString.format V builder fmtstr [a]
      = V builder fmtstr ⟨[⟨a.ref, kind, .format_value a.T⟩], 0⟩ := by
  simp [Formatter_FormatString.format, VariadicFormatParams, VariadicFormatParams.m_data, h,
    max_format_arguments, TypeErasedFormatParams.set_parameters]

/-- The dispatch of a handle of type `Error`, when `StandardFormatter::parse` returns: what
`Formatter<Error>::format` returns. -/
theorem rendered_dispatch_Error {σ : Type} (env : Env σ) (V : Driver) (value : Ref)
    (directive : List Char) (builder : FormatBuilder) (params : TypeErasedFormatParams)
    (parsed : StandardFormatter × TypeErasedFormatParams × FormatParser)
    (h : env.parse {} params ⟨directive⟩ = .ret parsed) :
    rendered (dispatch env V ⟨value, .Custom, .format_value .Error⟩ directive builder params)
      = Formatter_Error.format env V builder value := by
  obtain ⟨formatter, params', parser⟩ := parsed
  simp only [dispatch, adapter, __format_value, __format_value_steps, h]
  generalize Formatter_Error.format env V builder value = x
  cases x with
  | ret r => rfl
  | abort => rfl
  | rejected => rfl
  | outOfFuel => rfl

/-! ## `Formatter<ErrorOr<T, ErrorType>>` -/

/-- C10: `Formatter<ErrorOr<T, ErrorType>>::format` and `Formatter<Error>::format` call the
driver once, on a fresh registry (cursor 0) of one handle, and return its result: the
template is `{{{}}}` with the held value, `{}` with the held error, `Error(code={})` with the
error's code. With the Dispatch Driver of the specification, a value appends `{`, then the
default rendering of the value, then `}`; an error of type `Error` appends `Error(code=`,
then the default rendering of the code, then `)`, once `StandardFormatter::parse` has
returned on the empty directive. -/
theorem Formatter_ErrorOr_format_spec {σ : Type} (env : Env σ) (T ErrorType : CType)
    (builder : FormatBuilder) (error_or : Ref) :
    (∀ (V : Driver) (v : Value) (kind : Type_),
      error_or.obj = .ErrorOr_value v → get_type T = some kind →
      Formatter_ErrorOr.format env V T ErrorType builder error_or
        = V builder "\x7b\x7b\x7b\x7d\x7d\x7d".toList
            ⟨[⟨⟨env.inner error_or, v⟩, kind, .format_value T⟩], 0⟩) ∧
    (∀ (V : Driver) (e : Value) (kind : Type_),
      error_or.obj = .ErrorOr_error e → get_type ErrorType = some kind →
      Formatter_ErrorOr.format env V T ErrorType builder error_or
        = V builder "\x7b\x7d".toList
            ⟨[⟨⟨env.inner error_or, e⟩, kind, .format_value ErrorType⟩], 0⟩) ∧
    (∀ (V : Driver) (error : Ref) (kind : Type_), get_type env.code_type = some kind →
      Formatter_Error.format env V builder error
        = V builder "Error(code=\x7b\x7d)".toList
            ⟨[⟨⟨env.inner error, .int error.obj.code⟩, kind, .format_value env.code_type⟩], 0⟩) ∧
    (∀ (depth : Nat) (v : Value) (kind : Type_),
      error_or.obj = .ErrorOr_value v → get_type T = some kind →
      Formatter_ErrorOr.format env (vformat env (depth + 1)) T ErrorType builder error_or
        = and_then (builder.put_literal [lbrace]) fun builder =>
            and_then (rendered (dispatch env (vformat env depth)
              ⟨⟨env.inner error_or, v⟩, kind, .format_value T⟩ [] builder
              ⟨[⟨⟨env.inner error_or, v⟩, kind, .format_value T⟩],
                1 % 2 ^ (8 * env.size_t_bytes)⟩)) fun builder =>
            builder.put_literal [rbrace]) ∧
    (∀ (depth : Nat) (e : Value) (kind : Type_)
      (parsed : StandardFormatter × TypeErasedFormatParams × FormatParser),
      error_or.obj = .ErrorOr_error e → get_type env.code_type = some kind →
      env.parse {} ⟨[⟨⟨env.inner error_or, e⟩, .Custom, .format_value .Error⟩],
        1 % 2 ^ (8 * env.size_t_bytes)⟩ ⟨[]⟩ = .ret parsed →
      Formatter_ErrorOr.format env (vformat env (depth + 2)) T .Error builder error_or
        = and_then (builder.put_literal "Error(code=".toList) fun builder =>
            and_then (rendered (dispatch env (vformat env depth)
              ⟨⟨env.inner ⟨env.inner error_or, e⟩, .int e.code⟩, kind,
                .format_value env.code_type⟩ [] builder
              ⟨[⟨⟨env.inner ⟨env.inner error_or, e⟩, .int e.code⟩, kind,
                .format_value env.code_type⟩],
                1 % 2 ^ (8 * env.size_t_bytes)⟩)) fun builder =>
            builder.put_literal [')']) := by
  have hvalue : ∀ (V : Driver) (v : Value) (kind : Type_),
      error_or.obj = .ErrorOr_value v → get_type T = some kind →
      Formatter_ErrorOr.format env V T ErrorType builder error_or
        = V builder "\x7b\x7b\x7b\x7d\x7d\x7d".toList
            ⟨[⟨⟨env.inner error_or, v⟩, kind, .format_value T⟩], 0⟩ := by
    intro V v kind hv hk
    simp only [Formatter_ErrorOr.format, hv, Value.is_error, Value.value, Bool.false_eq_true,
      if_false]
    exact Formatter_FormatString_format_one V builder _ ⟨T, ⟨env.inner error_or, v⟩⟩ kind hk
  have herror : ∀ (E : CType) (V : Driver) (e : Value) (kind : Type_),
      error_or.obj = .ErrorOr_error e → get_type E = some kind →
      Formatter_ErrorOr.format env V T E builder error_or
        = V builder "\x7b\x7d".toList
            ⟨[⟨⟨env.inner error_or, e⟩, kind, .format_value E⟩], 0⟩ := by
    intro E V e kind he hk
    simp only [Formatter_ErrorOr.format, he, Value.is_error, Value.error, if_true]
    exact Formatter_FormatString_format_one V builder _ ⟨E, ⟨env.inner error_or, e⟩⟩ kind hk
  have hcode : ∀ (b : FormatBuilder) (V : Driver) (error : Ref) (kind : Type_),
      get_type env.code_type = some kind →
      Formatter_Error.format env V b error
        = V b "Error(code=\x7b\x7d)".toList
            ⟨[⟨⟨env.inner error, .int error.obj.code⟩, kind, .format_value env.code_type⟩], 0⟩ := by
    intro b V error kind hk
    exact Formatter_FormatString_format_one V b _
      ⟨env.code_type, ⟨env.inner error, .int error.obj.code⟩⟩ kind hk
  refine ⟨hvalue, herror ErrorType, hcode builder, ?_, ?_⟩
  · intro depth v kind hv hk
    rw [hvalue _ v kind hv hk, template_value, vformat_braced_placeholder]
  · intro depth e kind parsed he hk hparse
    rw [herror .Error _ e .Custom he rfl, template_error, vformat_placeholder,
      rendered_dispatch_Error env _ _ _ _ _ parsed hparse, hcode builder _ _ kind hk,
      template_code, vformat_error_code]

/-- C10 at `sample_env` (its integer primitive writes `7`) and a sink with room: an
`ErrorOr<int>` holding the value 7 appends `{7}`, one holding `Error` 7 appends
`Error(code=7)`; before that, the three single calls of an arbitrary driver. -/
theorem Formatter_ErrorOr_format_spec_witness :
    Formatter_ErrorOr.format sample_env (fun _ _ _ => .abort) (.integral 0 4 false) .Error
        sample_builder ⟨0, .ErrorOr_value (.int 7)⟩ = .abort ∧
    Formatter_ErrorOr.format sample_env (fun _ _ _ => .abort) (.integral 0 4 false) .Error
        sample_builder ⟨0, .ErrorOr_error (.Error 7)⟩ = .abort ∧
    Formatter_Error.format sample_env (fun _ _ _ => .abort) sample_builder ⟨0, .Error 7⟩
      = .abort ∧
    Formatter_ErrorOr.format sample_env (vformat sample_env 1) (.integral 0 4 false) .Error
        sample_builder ⟨0, .ErrorOr_value (.int 7)⟩
      = .ret (.ok (), ⟨⟨[lbrace, '7', rbrace], 97⟩⟩) ∧
    Formatter_ErrorOr.format sample_env (vformat sample_env 2) (.integral 0 4 false) .Error
        sample_builder ⟨0, .ErrorOr_error (.Error 7)⟩
      = .ret (.ok (), ⟨⟨"Error(code=7)".toList, 87⟩⟩) :=
  ⟨(Formatter_ErrorOr_format_spec sample_env (.integral 0 4 false) .Error sample_builder
      ⟨0, .ErrorOr_value (.int 7)⟩).1 (fun _ _ _ => .abort) (.int 7) .Int32 rfl rfl,
   (Formatter_ErrorOr_format_spec sample_env (.integral 0 4 false) .Error sample_builder
      ⟨0, .ErrorOr_error (.Error 7)⟩).2.1 (fun _ _ _ => .abort) (.Error 7) .Custom rfl rfl,
   (Formatter_ErrorOr_format_spec sample_env (.integral 0 4 false) .Error sample_builder
      ⟨0, .ErrorOr_error (.Error 7)⟩).2.2.1 (fun _ _ _ => .abort) ⟨0, .Error 7⟩ .Int32 rfl,
   ((Formatter_ErrorOr_format_spec sample_env (.integral 0 4 false) .Error sample_builder
      ⟨0, .ErrorOr_value (.int 7)⟩).2.2.2.1 0 (.int 7) .Int32 rfl rfl).trans (by decide),
   ((Formatter_ErrorOr_format_spec sample_env (.integral 0 4 false) .Error sample_builder
      ⟨0, .ErrorOr_error (.Error 7)⟩).2.2.2.2 0 (.Error 7) .Int32
      ({}, ⟨[⟨⟨8, .Error 7⟩, .Custom, .format_value .Error⟩], 1⟩, ⟨[]⟩) rfl rfl
      (by decide)).trans (by decide)⟩

end Jakt
